import Mathlib

/-!
Shallow embedding of the workspace provisioning engine of
`components/runners/claude-code-runner/main.py`: repository/workflow
provisioning, default-branch resolution, the repo registry and the
workflow change coordinator.  Pure Lean translations of the Python
functions, followed by theorems about them.

Modelling conventions:
* environment variables are a record of `Option String` fields
  (`none` = unset); `os.getenv(v, d)` becomes `Option.getD`;
* Python string operations (`strip`, `split`, `replace`, `in`,
  `removesuffix`, `lower`) are re-implemented structurally over
  `List Char` so that concrete instances evaluate in the kernel;
* Python truthiness `a or b` on strings becomes `pyOr`;
* a git working copy is abstracted as its local branches, current
  branch, remote-tracking branches and the raw outputs of the two
  introspection commands used by `get_default_branch`; a git
  subprocess becomes a function on this state whose success condition
  mirrors git's documented behaviour;
* the filesystem directory `repos/` is an association list from
  directory name to git state.
-/

/-- Whitespace as stripped by Python `str.strip()` (ASCII fragment). -/
def isPySpace (c : Char) : Bool :=
  c = ' ' || c = '\t' || c = '\n' || c = '\r' || c = '\x0b' || c = '\x0c'

/-- Python `s.strip()` on a character list. -/
def pyStripL (l : List Char) : List Char :=
  ((l.dropWhile isPySpace).reverse.dropWhile isPySpace).reverse

/-- Python `s.strip()`. -/
def pyStrip (s : String) : String := (pyStripL s.data).asString

/-- Python `s.split(c)` (single-character separator) on a character list. -/
def splitOnChar (c : Char) : List Char → List (List Char)
  | [] => [[]]
  | x :: xs =>
    let r := splitOnChar c xs
    if x = c then [] :: r
    else
      match r with
      | [] => [[x]]
      | y :: ys => (x :: y) :: ys

/-- Python `s.split(c)`. -/
def pySplit (c : Char) (s : String) : List String :=
  (splitOnChar c s.data).map List.asString

/-- Python `pat in s` (contiguous subsequence test). -/
def containsSeq (pat : List Char) : List Char → Bool
  | [] => pat.isEmpty
  | x :: xs => pat.isPrefixOf (x :: xs) || containsSeq pat xs

/-- Python `pat in s` on strings. -/
def hasSub (s pat : String) : Bool := containsSeq pat.data s.data

/-- Python `s.removesuffix(suf)` on a character list. -/
def removesuffixL (l suf : List Char) : List Char :=
  if !suf.isEmpty && suf.isSuffixOf l then l.take (l.length - suf.length) else l

/-- Python `s.removesuffix(suf)`. -/
def removesuffix (s suf : String) : String := (removesuffixL s.data suf.data).asString

/-- ASCII lower-casing of one character (Python `str.lower` fragment). -/
def lowerChar (c : Char) : Char :=
  if 'A' ≤ c && c ≤ 'Z' then Char.ofNat (c.toNat + 32) else c

/-- Python `s.lower()` (ASCII fragment). -/
def lowerStr (s : String) : String := (s.data.map lowerChar).asString

/-- Fuel-indexed worker for `replaceSeq`. -/
def replaceSeqAux (pat rep : List Char) : Nat → List Char → List Char
  | 0, l => l
  | _, [] => []
  | fuel + 1, x :: xs =>
    if pat.isPrefixOf (x :: xs) && !pat.isEmpty then
      rep ++ replaceSeqAux pat rep fuel ((x :: xs).drop pat.length)
    else
      x :: replaceSeqAux pat rep fuel xs

/-- Python `s.replace(pat, rep)`: every non-overlapping occurrence,
left to right. -/
def replaceSeq (pat rep l : List Char) : List Char := replaceSeqAux pat rep l.length l

/-- Python `s.replace(pat, rep)` on strings. -/
def pyReplace (s pat rep : String) : String := (replaceSeq pat.data rep.data s.data).asString

/-- Python `a or b` for strings: `b` when `a` is falsy (empty). -/
def pyOr (a b : String) : String := if a = "" then b else a

/-- Python `a or b` where `a : str | None` (e.g. a token override). -/
def pyOrOpt (a : Option String) (b : String) : String :=
  match a with
  | none => b
  | some s => pyOr s b

/-- Python `s.split("/")[-1]`. -/
def lastSeg (s : String) : String := (pySplit '/' s).getLastD ""

example : pyStrip "  a b \n" = "a b" := by decide
example : pySplit '/' "refs/remotes/origin/main" = ["refs", "remotes", "origin", "main"] := by decide
example : hasSub "my GitHub url" "Hub" = true := by decide
example : removesuffix "proj.git" ".git" = "proj" := by decide
example : lowerStr "GitHub.COM" = "github.com" := by decide
example : pyReplace "https://g" "https://" "https://t@" = "https://t@g" := by decide
example : lastSeg "https://x/org/proj.git" = "proj.git" := by decide

/-- The environment variables read by the provisioning engine
(`none` models an unset variable). -/
structure Env where
  agenticSessionName : Option String := none
  sessionIdVar : Option String := none
  workspacePath : Option String := none
  githubToken : Option String := none
  gitlabToken : Option String := none
  activeWorkflowGitUrl : Option String := none
  activeWorkflowBranch : Option String := none
  activeWorkflowPath : Option String := none
deriving DecidableEq, Repr

/-- `os.getenv("AGENTIC_SESSION_NAME", "").strip() or os.getenv("SESSION_ID", "unknown")`
(main.py lines 1040-1042). -/
def sessionIdOf (env : Env) : String :=
  pyOr (pyStrip (env.agenticSessionName.getD "")) (env.sessionIdVar.getD "unknown")

/-- Branch-name synthesis of `clone_repo_at_runtime` (main.py lines
1039-1044): an empty/blank branch becomes `ambient/<sessionId>`. -/
def resolveBranch (env : Env) (branch : String) : String :=
  if pyStrip branch = "" then "ambient/" ++ sessionIdOf env else branch

/-- Name derivation `git_url.split("/")[-1].removesuffix(".git")`
(main.py line 1035). -/
def deriveName (gitUrl : String) : String := removesuffix (lastSeg gitUrl) ".git"

/-- The effective directory name: the caller's name, or derived from the
URL when empty (main.py lines 1034-1035). -/
def effName (gitUrl name : String) : String :=
  if name = "" then deriveName gitUrl else name

/-- `Path(os.getenv("WORKSPACE_PATH", "/workspace")) / "repos"` (main.py
lines 1047-1048). -/
def reposRoot (env : Env) : String := env.workspacePath.getD "/workspace" ++ "/repos"

/-!  Default branch resolution (`get_default_branch`, main.py 920-993). -/

/-- What the three git introspection probes of `get_default_branch` would
report for a repository: raw stdout of `git symbolic-ref
refs/remotes/origin/HEAD` (`none` = nonzero exit), raw stdout of
`git remote show origin` (`none` = nonzero exit), and the
remote-tracking branches that `git rev-parse --verify origin/<c>`
would accept. -/
structure RepoProbe where
  symbolicRefOut : Option String := none
  remoteShowOut : Option String := none
  remoteTrackingBranches : List String := []
deriving DecidableEq, Repr

/-- Tier 1 of `get_default_branch` (main.py 936-951): last `/`-segment of
the origin/HEAD symbolic ref, when the command succeeds and the segment
is nonempty. -/
def tier1 (symbolicRefOut : Option String) : Option String :=
  match symbolicRefOut with
  | none => none
  | some out =>
    let d := lastSeg (pyStrip out)
    if d = "" then none else some d

/-- One line of `git remote show origin` output, as scanned by tier 2
(main.py 967-972): the value after the last `:` of a line containing
`HEAD branch:`, when nonempty and not the `(unknown)` sentinel. -/
def headBranchOfLine (line : String) : Option String :=
  if hasSub line "HEAD branch:" then
    let d := pyStrip ((pySplit ':' line).getLastD "")
    if d ≠ "" ∧ d ≠ "(unknown)" then some d else none
  else none

/-- Tier 2 of `get_default_branch` (main.py 953-972): scan the lines of
`git remote show origin` for a usable `HEAD branch:` value. -/
def tier2 (remoteShowOut : Option String) : Option String :=
  match remoteShowOut with
  | none => none
  | some out => (pySplit '\n' out).findSome? headBranchOfLine

/-- Tier 3 of `get_default_branch` (main.py 974-989): first of `main`,
`master`, `develop` that verifies as a remote-tracking ref. -/
def tier3 (remoteTrackingBranches : List String) : Option String :=
  (["main", "master", "develop"]).find? (fun c => remoteTrackingBranches.contains c)

/-- `get_default_branch` (main.py 920-993): three-tier fallback, then the
hard-coded `"main"`. -/
def get_default_branch (p : RepoProbe) : String :=
  match tier1 p.symbolicRefOut with
  | some b => b
  | none =>
    match tier2 p.remoteShowOut with
    | some b => b
    | none =>
      match tier3 p.remoteTrackingBranches with
      | some b => b
      | none => "main"

example : get_default_branch ⟨some "refs/remotes/origin/main\n", none, []⟩ = "main" := by decide
example : get_default_branch ⟨none, some "* remote origin\n  HEAD branch: trunk\n", []⟩ = "trunk" := by decide
example : get_default_branch ⟨none, some "  HEAD branch: (unknown)\n", ["develop"]⟩ = "develop" := by decide
example : get_default_branch ⟨none, none, []⟩ = "main" := by decide
example : get_default_branch ⟨none, none, ["master"]⟩ = "master" := by decide

/-!  Git working-copy model and the repository provisioner
(`clone_repo_at_runtime`, main.py 996-1233). -/

/-- Abstract state of one git working copy under `repos/`: local
branches, the currently checked-out branch, the remote-tracking
branches, and the raw outputs the two introspection commands of
`get_default_branch` would produce for it. -/
structure GitRepo where
  localBranches : List String
  currentBranch : String
  remoteBranches : List String
  symbolicRefOut : Option String := none
  remoteShowOut : Option String := none
deriving DecidableEq, Repr

/-- The probe view of a working copy used by `get_default_branch`. -/
def probeOf (r : GitRepo) : RepoProbe :=
  ⟨r.symbolicRefOut, r.remoteShowOut, r.remoteBranches⟩

/-- Abstract state of the remote repository behind one URL: whether
`git clone` of it succeeds, its branches, the branch a fresh clone
checks out by default, and the introspection outputs a clone of it
produces. -/
structure Remote where
  cloneOk : Bool
  branches : List String
  defaultBranch : String
  symbolicRefOut : Option String := none
  remoteShowOut : Option String := none
deriving DecidableEq, Repr

/-- `git fetch origin` (main.py 1072-1082): refresh the remote-tracking
branches; exit status is not inspected by the caller. -/
def fetchOrigin (r : GitRepo) (remote : Remote) : GitRepo :=
  { r with remoteBranches := remote.branches }

/-- `git checkout b` (main.py 1084-1098): succeeds when `b` is a local
branch, or (git's do-what-I-mean rule) when `origin/b` exists, in which
case a local branch tracking it is created. -/
def checkout (r : GitRepo) (b : String) : Option GitRepo :=
  if b ∈ r.localBranches then some { r with currentBranch := b }
  else if b ∈ r.remoteBranches then
    some { r with localBranches := b :: r.localBranches, currentBranch := b }
  else none

/-- `git checkout -b b origin/b` (main.py 1100-1117): succeeds when `b`
is not yet local and `origin/b` exists. -/
def checkoutTrack (r : GitRepo) (b : String) : Option GitRepo :=
  if b ∈ r.localBranches then none
  else if b ∈ r.remoteBranches then
    some { r with localBranches := b :: r.localBranches, currentBranch := b }
  else none

/-- `git checkout -b b` (main.py 1140-1150): create `b` from the current
HEAD; fails when `b` already exists. -/
def checkoutNew (r : GitRepo) (b : String) : Option GitRepo :=
  if b ∈ r.localBranches then none
  else some { r with localBranches := b :: r.localBranches, currentBranch := b }

/-- Case 1 of `clone_repo_at_runtime` (main.py 1066-1161; the repository
directory already exists): fetch, try `checkout b`, then
`checkout -b b origin/b`, then check out the resolved default branch
(exit status ignored, main.py 1128-1137) and create `b` from it.
Returns the success flag and the resulting working copy (the working
copy mutations persist even when the final step fails). -/
def provisionExisting (r0 : GitRepo) (remote : Remote) (b : String) : Bool × GitRepo :=
  let r1 := fetchOrigin r0 remote
  match checkout r1 b with
  | some r2 => (true, r2)
  | none =>
    match checkoutTrack r1 b with
    | some r2 => (true, r2)
    | none =>
      let db := get_default_branch (probeOf r1)
      let r2 := (checkout r1 db).getD r1
      match checkoutNew r2 b with
      | some r3 => (true, r3)
      | none => (false, r2)

/-- Case 2 of `clone_repo_at_runtime` (main.py 1163-1226; fresh clone):
full clone (all branches), try `checkout b`, else `git checkout -b b`
whose exit status the code does not inspect (main.py 1208-1218). -/
def freshClone (remote : Remote) (b : String) : GitRepo :=
  let fresh : GitRepo :=
    { localBranches := [remote.defaultBranch]
      currentBranch := remote.defaultBranch
      remoteBranches := remote.branches
      symbolicRefOut := remote.symbolicRefOut
      remoteShowOut := remote.remoteShowOut }
  match checkout fresh b with
  | some r => r
  | none => (checkoutNew fresh b).getD fresh

/-- The `repos/` directory: an association list from directory name to
working-copy state. -/
abbrev RepoDirs := List (String × GitRepo)

/-- Directory lookup under `repos/`. -/
def lookupRepo : RepoDirs → String → Option GitRepo
  | [], _ => none
  | (k, r) :: rest, n => if k = n then some r else lookupRepo rest n

/-- Replace the working copy stored under an existing name. -/
def setRepo (ds : RepoDirs) (n : String) (r : GitRepo) : RepoDirs :=
  ds.map fun p => if p.1 = n then (n, r) else p

/-- `ProvisionResult` (main.py 1020-1024): the
`(success, repo_dir_path, was_newly_cloned)` tuple. -/
structure ProvisionResult where
  success : Bool
  path : String
  wasNewlyCloned : Bool
deriving DecidableEq, Repr

/-- Credential injection of `clone_repo_at_runtime` (main.py 1052-1064):
header token overrides the environment token; `x-access-token:` userinfo
for URLs containing `github`, `oauth2:` for URLs containing `gitlab`. -/
def buildCloneUrl (gitUrl : String) (ghOv glOv : Option String) (env : Env) : String :=
  let githubToken := pyOrOpt ghOv (pyStrip (env.githubToken.getD ""))
  let gitlabToken := pyOrOpt glOv (pyStrip (env.gitlabToken.getD ""))
  if githubToken ≠ "" ∧ hasSub (lowerStr gitUrl) "github" then
    pyReplace gitUrl "https://" ("https://x-access-token:" ++ githubToken ++ "@")
  else if gitlabToken ≠ "" ∧ hasSub (lowerStr gitUrl) "gitlab" then
    pyReplace gitUrl "https://" ("https://oauth2:" ++ gitlabToken ++ "@")
  else gitUrl

/-- `clone_repo_at_runtime` (main.py 996-1233) as a state transition on
the `repos/` directory.  Authentication and network behaviour of the
actual `git clone` are folded into `remote.cloneOk`; the clone URL the
code would pass to git is `buildCloneUrl`.  Returns the
`ProvisionResult` and the updated `repos/` directory. -/
def clone_repo_at_runtime (env : Env) (repos : RepoDirs) (remote : Remote)
    (gitUrl branch name : String) : ProvisionResult × RepoDirs :=
  if gitUrl = "" then (⟨false, "", false⟩, repos)
  else
    let name1 := effName gitUrl name
    let branch1 := resolveBranch env branch
    let repoFinal := reposRoot env ++ "/" ++ name1
    match lookupRepo repos name1 with
    | some repo =>
      let pr := provisionExisting repo remote branch1
      if pr.1 then (⟨true, repoFinal, false⟩, setRepo repos name1 pr.2)
      else (⟨false, "", false⟩, setRepo repos name1 pr.2)
    | none =>
      if remote.cloneOk then
        (⟨true, repoFinal, true⟩, repos ++ [(name1, freshClone remote branch1)])
      else (⟨false, "", false⟩, repos)

example :
    clone_repo_at_runtime { sessionIdVar := some "s1" } [] ⟨true, ["main"], "main", none, none⟩
      "https://github.com/org/proj.git" "" "" =
    (⟨true, "/workspace/repos/proj", true⟩,
     [("proj", ⟨["ambient/s1", "main"], "ambient/s1", ["main"], none, none⟩)]) := by decide

/-!  The workflow change coordinator (`change_workflow`, main.py
849-917) and the repo add/remove endpoints (main.py 1301-1501). -/

/-- The JSON body of `POST /workflow` (`none` = key absent). -/
structure WorkflowReq where
  gitUrl : Option String := none
  branch : Option String := none
  path : Option String := none
deriving DecidableEq, Repr

/-- Process-wide state touched by the handlers: the active-workflow
environment variables, the `_adapter_initialized` flag and the
adapter's `_first_run` flag. -/
structure WfState where
  env : Env
  adapterInitialized : Bool
  firstRun : Bool
deriving DecidableEq, Repr

/-- The JSON response of `POST /workflow`. -/
structure WfResponse where
  message : String
  gitUrl : String
  branch : String
  path : String
deriving DecidableEq, Repr

/-- Observable side effects of one `POST /workflow` call: whether
`clone_workflow_at_runtime` was invoked and whether the greeting
task was spawned. -/
structure WfEffects where
  cloneAttempted : Bool
  greetingTriggered : Bool
deriving DecidableEq, Repr

/-- `change_workflow` (main.py 849-917), the body of the critical
section: normalize the request, compare it with the recorded
`ACTIVE_WORKFLOW_*` values, return `Workflow already active` on
equality, otherwise clone (when `gitUrl` is nonempty; the result is
only logged), record the new state, reset the adapter flags and spawn
the greeting.  `_cloneSucceeds` abstracts the outcome of
`clone_workflow_at_runtime`, which the handler ignores. -/
def change_workflow (st : WfState) (req : WorkflowReq) (_cloneSucceeds : Bool) :
    WfResponse × WfState × WfEffects :=
  let gitUrl := pyStrip (pyOrOpt req.gitUrl "")
  let branch := pyOr (pyStrip (pyOrOpt req.branch "main")) "main"
  let path := pyStrip (pyOrOpt req.path "")
  let currentGitUrl := pyStrip (st.env.activeWorkflowGitUrl.getD "")
  let currentBranch := pyOr (pyStrip (st.env.activeWorkflowBranch.getD "main")) "main"
  let currentPath := pyStrip (st.env.activeWorkflowPath.getD "")
  if currentGitUrl = gitUrl ∧ currentBranch = branch ∧ currentPath = path then
    (⟨"Workflow already active", gitUrl, branch, path⟩, st, ⟨false, false⟩)
  else
    (⟨"Workflow updated", gitUrl, branch, path⟩,
     { st with
        env := { st.env with
                  activeWorkflowGitUrl := some gitUrl
                  activeWorkflowBranch := some branch
                  activeWorkflowPath := some path }
        adapterInitialized := false
        firstRun := true },
     ⟨gitUrl != "", true⟩)

/-- One record of the `REPOS_JSON` registry
(`{"name": ..., "input": {"url": ..., "branch": ...}}`, main.py 1358). -/
structure RepoRecord where
  name : String
  url : String
  branch : String
deriving DecidableEq, Repr

/-- Process-wide state touched by `add_repo` / `remove_repo`: the
`repos/` directory, the `REPOS_JSON` registry, and the adapter flags. -/
structure RunnerState where
  repos : RepoDirs
  registry : List RepoRecord
  adapterInitialized : Bool
  firstRun : Bool
deriving DecidableEq, Repr

/-- The state at pod start: empty registry, empty `repos/`. -/
def emptyRunnerState : RunnerState := ⟨[], [], false, true⟩

/-- The JSON body of `POST /repos/add` (`none` = key absent). -/
structure AddReq where
  url : Option String := none
  branch : Option String := none
  name : Option String := none
deriving DecidableEq, Repr

/-- `request.headers.get(h, "").strip() or None` (main.py 1320-1321). -/
def headerToken (h : Option String) : Option String :=
  let s := pyStrip (h.getD "")
  if s = "" then none else some s

/-- The success JSON response of `POST /repos/add` (main.py 1377-1382). -/
structure AddResponse where
  message : String
  name : String
  path : String
  newlyCloned : Bool
deriving DecidableEq, Repr

/-- `add_repo` (main.py 1301-1382): HTTP 400 on missing URL, derive the
name, provision via `clone_repo_at_runtime`, HTTP 500 on failure; on a
fresh clone append the registry record (with the caller's `url` and
`branch` values), reset the adapter flags and spawn the notify task.
Errors are `(status, detail)`; the final `Bool` is whether the notify
task was spawned. -/
def add_repo (env : Env) (st : RunnerState) (remote : Remote) (req : AddReq) :
    Except (Nat × String) AddResponse × RunnerState × Bool :=
  let url := req.url.getD ""
  let branch := req.branch.getD "main"
  let name0 := req.name.getD ""
  if url = "" then (.error (400, "Repository URL is required"), st, false)
  else
    let name1 := if name0 = "" then deriveName url else name0
    let out := clone_repo_at_runtime env st.repos remote url branch name1
    if out.1.success then
      if out.1.wasNewlyCloned then
        (.ok ⟨"Repository added", name1, out.1.path, true⟩,
         { st with
            repos := out.2
            registry := st.registry ++ [⟨name1, url, branch⟩]
            adapterInitialized := false
            firstRun := true },
         true)
      else
        (.ok ⟨"Repository added", name1, out.1.path, false⟩,
         { st with repos := out.2 }, false)
    else
      (.error (500, "Failed to clone repository: " ++ url),
       { st with repos := out.2 }, false)

/-- `remove_repo` (main.py 1448-1501): delete `repos/<name>` when it
exists (`rmOk` abstracts whether `shutil.rmtree` succeeds; on failure
the handler raises HTTP 500 before touching the registry), then drop
every registry record with that name and reset the adapter flags. -/
def remove_repo (st : RunnerState) (name : String) (rmOk : Bool) :
    Except (Nat × String) String × RunnerState :=
  match lookupRepo st.repos name with
  | some _ =>
    if rmOk then
      (.ok "Repository removed",
       { st with
          repos := st.repos.filter (fun p => p.1 != name)
          registry := st.registry.filter (fun r => r.name != name)
          adapterInitialized := false
          firstRun := true })
    else (.error (500, "Failed to delete repository"), st)
  | none =>
    (.ok "Repository removed",
     { st with
        registry := st.registry.filter (fun r => r.name != name)
        adapterInitialized := false
        firstRun := true })

/-- One request against the repo endpoints, for reasoning about
sequences of operations. -/
inductive RepoOp where
  | add (remote : Remote) (req : AddReq)
  | remove (name : String) (rmOk : Bool)
deriving Repr

/-- Apply one repo endpoint request to the process state. -/
def applyRepoOp (env : Env) (st : RunnerState) : RepoOp → RunnerState
  | .add remote req => (add_repo env st remote req).2.1
  | .remove name rmOk => (remove_repo st name rmOk).2

/-- The registry names, whose uniqueness §3 claims invariant. -/
def registryNames (st : RunnerState) : List String := st.registry.map (·.name)

example :
    (add_repo { sessionIdVar := some "s1" } emptyRunnerState
      ⟨true, ["main"], "main", none, none⟩
      ⟨some "https://github.com/org/proj.git", some "", some ""⟩).2.1.registry =
    [⟨"proj", "https://github.com/org/proj.git", ""⟩] := by decide

/-!  Lemmas about the git-subprocess model. -/

theorem checkout_some {r r' : GitRepo} {b : String} (h : checkout r b = some r') :
    r'.currentBranch = b ∧ b ∈ r'.localBranches ∧ r'.remoteBranches = r.remoteBranches := by
  unfold checkout at h
  split at h
  · cases h
    simp_all
  · split at h
    · cases h
      simp_all
    · cases h

theorem checkout_none {r : GitRepo} {b : String} (h : checkout r b = none) :
    b ∉ r.localBranches := by
  unfold checkout at h
  split at h
  · cases h
  · split at h <;> simp_all

theorem checkoutTrack_some {r r' : GitRepo} {b : String} (h : checkoutTrack r b = some r') :
    r'.currentBranch = b ∧ b ∈ r'.localBranches ∧ r'.remoteBranches = r.remoteBranches := by
  unfold checkoutTrack at h
  split at h
  · cases h
  · split at h
    · cases h
      simp_all
    · cases h

theorem checkoutNew_some {r r' : GitRepo} {b : String} (h : checkoutNew r b = some r') :
    r'.currentBranch = b ∧ b ∈ r'.localBranches ∧ r'.remoteBranches = r.remoteBranches := by
  unfold checkoutNew at h
  split at h
  · cases h
  · cases h
    simp_all

theorem checkout_getD_remoteBranches (r : GitRepo) (b : String) :
    ((checkout r b).getD r).remoteBranches = r.remoteBranches := by
  cases hc : checkout r b with
  | none => rfl
  | some r' => simpa using (checkout_some hc).2.2

theorem provisionExisting_success {r0 : GitRepo} {remote : Remote} {b : String}
    (h : (provisionExisting r0 remote b).1 = true) :
    (provisionExisting r0 remote b).2.currentBranch = b ∧
    b ∈ (provisionExisting r0 remote b).2.localBranches ∧
    (provisionExisting r0 remote b).2.remoteBranches = remote.branches := by
  have hrem : (fetchOrigin r0 remote).remoteBranches = remote.branches := rfl
  unfold provisionExisting at h ⊢
  cases hc : checkout (fetchOrigin r0 remote) b with
  | some r2 =>
    simp only [hc]
    obtain ⟨h1, h2, h3⟩ := checkout_some hc
    exact ⟨h1, h2, h3.trans hrem⟩
  | none =>
    simp only [hc] at h ⊢
    cases ht : checkoutTrack (fetchOrigin r0 remote) b with
    | some r2 =>
      simp only [ht]
      obtain ⟨h1, h2, h3⟩ := checkoutTrack_some ht
      exact ⟨h1, h2, h3.trans hrem⟩
    | none =>
      simp only [ht] at h ⊢
      cases hn : checkoutNew ((checkout (fetchOrigin r0 remote)
          (get_default_branch (probeOf (fetchOrigin r0 remote)))).getD
          (fetchOrigin r0 remote)) b with
      | some r3 =>
        simp only [hn]
        obtain ⟨h1, h2, h3⟩ := checkoutNew_some hn
        refine ⟨h1, h2, ?_⟩
        rw [h3, checkout_getD_remoteBranches]
        exact hrem
      | none =>
        rw [hn] at h
        exact absurd h (by simp)

theorem freshClone_spec (remote : Remote) (b : String) :
    (freshClone remote b).currentBranch = b ∧ b ∈ (freshClone remote b).localBranches ∧
    (freshClone remote b).remoteBranches = remote.branches := by
  unfold freshClone
  cases hc : checkout ⟨[remote.defaultBranch], remote.defaultBranch, remote.branches,
      remote.symbolicRefOut, remote.remoteShowOut⟩ b with
  | some r =>
    simp only [hc]
    exact checkout_some hc
  | none =>
    have hbne : b ≠ remote.defaultBranch := by
      have hb := checkout_none hc
      simpa using hb
    simp [hc, checkoutNew, hbne]

theorem lookupRepo_cons (k : String) (x : GitRepo) (rest : RepoDirs) (n : String) :
    lookupRepo ((k, x) :: rest) n = if k = n then some x else lookupRepo rest n := rfl

theorem setRepo_cons (k : String) (x : GitRepo) (rest : RepoDirs) (n : String) (r : GitRepo) :
    setRepo ((k, x) :: rest) n r = (if k = n then (n, r) else (k, x)) :: setRepo rest n r := rfl

theorem lookupRepo_setRepo_self {ds : RepoDirs} {n : String} {r0 : GitRepo} (r : GitRepo)
    (h : lookupRepo ds n = some r0) : lookupRepo (setRepo ds n r) n = some r := by
  induction ds with
  | nil => cases h
  | cons p rest ih =>
    obtain ⟨k, x⟩ := p
    rw [lookupRepo_cons] at h
    rw [setRepo_cons]
    by_cases hk : k = n
    · rw [if_pos hk, lookupRepo_cons, if_pos rfl]
    · rw [if_neg hk] at h
      rw [if_neg hk, lookupRepo_cons, if_neg hk]
      exact ih h

theorem lookupRepo_append_self {ds : RepoDirs} {n : String} (r : GitRepo)
    (h : lookupRepo ds n = none) : lookupRepo (ds ++ [(n, r)]) n = some r := by
  induction ds with
  | nil => simp [lookupRepo]
  | cons p rest ih =>
    obtain ⟨k, x⟩ := p
    rw [lookupRepo_cons] at h
    rw [List.cons_append, lookupRepo_cons]
    by_cases hk : k = n
    · rw [if_pos hk] at h
      cases h
    · rw [if_neg hk] at h
      rw [if_neg hk]
      exact ih h

/-- After a successful provisioning call, the target directory holds the
requested branch checked out, the branch is local, the remote-tracking
refs are up to date, and the reported path is `repos/<name>`. -/
theorem clone_success_state (env : Env) (repos : RepoDirs) (remote : Remote)
    (gitUrl branch name : String)
    (h : (clone_repo_at_runtime env repos remote gitUrl branch name).1.success = true) :
    ∃ r, lookupRepo (clone_repo_at_runtime env repos remote gitUrl branch name).2
          (effName gitUrl name) = some r ∧
      r.currentBranch = resolveBranch env branch ∧
      resolveBranch env branch ∈ r.localBranches ∧
      r.remoteBranches = remote.branches ∧
      (clone_repo_at_runtime env repos remote gitUrl branch name).1.path =
        reposRoot env ++ "/" ++ effName gitUrl name := by
  unfold clone_repo_at_runtime at h ⊢
  by_cases hu : gitUrl = ""
  · simp [hu] at h
  · simp only [if_neg hu] at h ⊢
    cases hl : lookupRepo repos (effName gitUrl name) with
    | some repo =>
      simp only [hl] at h ⊢
      by_cases hp : (provisionExisting repo remote (resolveBranch env branch)).1 = true
      · obtain ⟨h1, h2, h3⟩ := provisionExisting_success hp
        refine ⟨(provisionExisting repo remote (resolveBranch env branch)).2, ?_, h1, h2, h3, ?_⟩
        · simp [hp, lookupRepo_setRepo_self _ hl]
        · simp [hp]
      · simp [hp] at h
    | none =>
      simp only [hl] at h ⊢
      by_cases hok : remote.cloneOk
      · obtain ⟨h1, h2, h3⟩ := freshClone_spec remote (resolveBranch env branch)
        refine ⟨freshClone remote (resolveBranch env branch), ?_, h1, h2, h3, ?_⟩
        · simp [hok, lookupRepo_append_self _ hl]
        · simp [hok]
      · simp [hok] at h

/-- Re-running the provisioner against a directory that already holds the
requested branch checked out (with refs fetched) is the pure idempotent
path: checkout of the current branch, no state change beyond rewriting
the same working copy. -/
theorem clone_on_provisioned (env : Env) (ds : RepoDirs) (remote : Remote)
    (gitUrl branch name : String) (r : GitRepo)
    (hu : gitUrl ≠ "")
    (hl : lookupRepo ds (effName gitUrl name) = some r)
    (hcur : r.currentBranch = resolveBranch env branch)
    (hmem : resolveBranch env branch ∈ r.localBranches)
    (hrem : r.remoteBranches = remote.branches) :
    clone_repo_at_runtime env ds remote gitUrl branch name =
      (⟨true, reposRoot env ++ "/" ++ effName gitUrl name, false⟩,
       setRepo ds (effName gitUrl name) r) := by
  have hfetch : fetchOrigin r remote = r := by
    unfold fetchOrigin
    rw [← hrem]
  have hco : checkout r (resolveBranch env branch) = some r := by
    unfold checkout
    rw [if_pos hmem, ← hcur]
  have hprov : provisionExisting r remote (resolveBranch env branch) = (true, r) := by
    simp only [provisionExisting]
    rw [hfetch, hco]
  unfold clone_repo_at_runtime
  rw [if_neg hu]
  simp [hl, hprov]

theorem effName_idem (gitUrl name : String) :
    effName gitUrl (effName gitUrl name) = effName gitUrl name := by
  unfold effName
  by_cases h : name = ""
  · simp only [if_pos h]
    by_cases h2 : deriveName gitUrl = "" <;> simp [h2]
  · simp [h]

/-- A provisioning call against a fresh name with a reachable remote is
exactly the clone-into-place path. -/
theorem clone_fresh (env : Env) (repos : RepoDirs) (remote : Remote)
    (gitUrl branch name : String)
    (hu : gitUrl ≠ "") (hl : lookupRepo repos (effName gitUrl name) = none)
    (hok : remote.cloneOk = true) :
    clone_repo_at_runtime env repos remote gitUrl branch name =
      (⟨true, reposRoot env ++ "/" ++ effName gitUrl name, true⟩,
       repos ++ [(effName gitUrl name, freshClone remote (resolveBranch env branch))]) := by
  unfold clone_repo_at_runtime
  rw [if_neg hu]
  simp [hl, hok]

/-- Sample environment and remote used by the concrete witnesses. -/
def demoEnv : Env := { sessionIdVar := some "s1" }

/-- Sample remote with a single `main` branch, reachable. -/
def demoRemote : Remote := ⟨true, ["main"], "main", none, none⟩

/-- C1: repository provisioning is idempotent.  If a call to
`clone_repo_at_runtime` with `(url, branch, name)` succeeded, a second
call with identical arguments returns `success = true`,
`wasNewlyCloned = false`, the same path, and leaves the checked-out
branch of `repos/<name>` unchanged. -/
theorem C1_repo_provisioning_idempotent (env : Env) (repos : RepoDirs) (remote : Remote)
    (gitUrl branch name : String)
    (h : (clone_repo_at_runtime env repos remote gitUrl branch name).1.success = true) :
    (clone_repo_at_runtime env
        (clone_repo_at_runtime env repos remote gitUrl branch name).2
        remote gitUrl branch name).1 =
      ⟨true, (clone_repo_at_runtime env repos remote gitUrl branch name).1.path, false⟩ ∧
    (lookupRepo (clone_repo_at_runtime env
        (clone_repo_at_runtime env repos remote gitUrl branch name).2
        remote gitUrl branch name).2 (effName gitUrl name)).map GitRepo.currentBranch =
      (lookupRepo (clone_repo_at_runtime env repos remote gitUrl branch name).2
        (effName gitUrl name)).map GitRepo.currentBranch := by
  have hu : gitUrl ≠ "" := by
    intro he
    rw [clone_repo_at_runtime, if_pos he] at h
    cases h
  obtain ⟨r, hl, hcur, hmem, hrem, hpath⟩ :=
    clone_success_state env repos remote gitUrl branch name h
  have h2 := clone_on_provisioned env
    (clone_repo_at_runtime env repos remote gitUrl branch name).2
    remote gitUrl branch name r hu hl hcur hmem hrem
  rw [h2]
  constructor
  · rw [hpath]
  · rw [lookupRepo_setRepo_self r hl, hl]

theorem C1_repo_provisioning_idempotent_witness :
    ((clone_repo_at_runtime demoEnv [] demoRemote
        "https://example.com/org/proj.git" "main" "").1.success = true) ∧
    ((clone_repo_at_runtime demoEnv
        (clone_repo_at_runtime demoEnv [] demoRemote
          "https://example.com/org/proj.git" "main" "").2
        demoRemote "https://example.com/org/proj.git" "main" "").1 =
      ⟨true, (clone_repo_at_runtime demoEnv [] demoRemote
          "https://example.com/org/proj.git" "main" "").1.path, false⟩ ∧
     (lookupRepo (clone_repo_at_runtime demoEnv
        (clone_repo_at_runtime demoEnv [] demoRemote
          "https://example.com/org/proj.git" "main" "").2
        demoRemote "https://example.com/org/proj.git" "main" "").2
        (effName "https://example.com/org/proj.git" "")).map GitRepo.currentBranch =
      (lookupRepo (clone_repo_at_runtime demoEnv [] demoRemote
          "https://example.com/org/proj.git" "main" "").2
        (effName "https://example.com/org/proj.git" "")).map GitRepo.currentBranch) :=
  ⟨by decide,
   C1_repo_provisioning_idempotent demoEnv [] demoRemote
     "https://example.com/org/proj.git" "main" "" (by decide)⟩

theorem findSome?_eq_some_exists {α β : Type} {f : α → Option β} {l : List α} {b : β}
    (h : l.findSome? f = some b) : ∃ a ∈ l, f a = some b := by
  induction l with
  | nil => cases h
  | cons x xs ih =>
    rw [List.findSome?_cons] at h
    cases hf : f x with
    | some y =>
      rw [hf] at h
      cases h
      exact ⟨x, by simp, hf⟩
    | none =>
      rw [hf] at h
      obtain ⟨a, ha, hfa⟩ := ih h
      exact ⟨a, by simp [ha], hfa⟩

theorem tier1_ne_empty {o : Option String} {b : String} (h : tier1 o = some b) : b ≠ "" := by
  unfold tier1 at h
  cases o with
  | none => cases h
  | some out =>
    simp only at h
    split at h
    · cases h
    · cases h
      assumption

theorem headBranchOfLine_ne_empty {line b : String} (h : headBranchOfLine line = some b) :
    b ≠ "" := by
  unfold headBranchOfLine at h
  split at h
  · dsimp only at h
    split at h
    · rename_i hcond
      cases h
      exact hcond.1
    · cases h
  · cases h

theorem tier2_ne_empty {o : Option String} {b : String} (h : tier2 o = some b) : b ≠ "" := by
  unfold tier2 at h
  cases o with
  | none => cases h
  | some out =>
    obtain ⟨line, _, hline⟩ := findSome?_eq_some_exists h
    exact headBranchOfLine_ne_empty hline

theorem tier3_mem {l : List String} {b : String} (h : tier3 l = some b) :
    b ∈ (["main", "master", "develop"] : List String) := by
  unfold tier3 at h
  exact List.mem_of_find?_eq_some h

/-- C3: the default branch resolver is total (always yields a nonempty
branch name) and follows the three-tier fallback order of
`get_default_branch`: the origin/HEAD symbolic ref, then the
`remote show` HEAD branch (when not the `(unknown)` sentinel), then the
first of `main`, `master`, `develop` that verifies as a remote-tracking
ref, then the hard-coded `"main"`.  In particular, with origin/HEAD
unset and a remote that has `master` but no `main`, it returns
`"master"`. -/
theorem C3_get_default_branch_fallback :
    (∀ p : RepoProbe, get_default_branch p ≠ "") ∧
    (∀ (p : RepoProbe) (b : String),
        tier1 p.symbolicRefOut = some b → get_default_branch p = b) ∧
    (∀ (p : RepoProbe) (b : String),
        tier1 p.symbolicRefOut = none → tier2 p.remoteShowOut = some b →
        get_default_branch p = b) ∧
    (∀ (p : RepoProbe) (b : String),
        tier1 p.symbolicRefOut = none → tier2 p.remoteShowOut = none →
        tier3 p.remoteTrackingBranches = some b → get_default_branch p = b) ∧
    (∀ p : RepoProbe,
        tier1 p.symbolicRefOut = none → tier2 p.remoteShowOut = none →
        tier3 p.remoteTrackingBranches = none → get_default_branch p = "main") ∧
    (∀ p : RepoProbe,
        p.symbolicRefOut = none →
        (tier2 p.remoteShowOut = none ∨ tier2 p.remoteShowOut = some "master") →
        "master" ∈ p.remoteTrackingBranches → "main" ∉ p.remoteTrackingBranches →
        get_default_branch p = "master") := by
  have h3m : ∀ l : List String, "master" ∈ l → ("main" : String) ∉ l →
      tier3 l = some "master" := by
    intro l hmas hmai
    unfold tier3
    have hc1 : decide (("main" : String) ∈ l) = false := decide_eq_false hmai
    have hc2 : decide (("master" : String) ∈ l) = true := decide_eq_true hmas
    simp [List.find?, hc1, hc2]
  refine ⟨?_, ?_, ?_, ?_, ?_, ?_⟩
  · intro p
    unfold get_default_branch
    cases h1 : tier1 p.symbolicRefOut with
    | some b => exact tier1_ne_empty h1
    | none =>
      cases h2 : tier2 p.remoteShowOut with
      | some b => exact tier2_ne_empty h2
      | none =>
        cases h3 : tier3 p.remoteTrackingBranches with
        | some b =>
          have := tier3_mem h3
          simp only [List.mem_cons, List.not_mem_nil, or_false] at this
          rcases this with h | h | h <;> subst h <;> decide
        | none => decide
  · intro p b h1
    unfold get_default_branch
    rw [h1]
  · intro p b h1 h2
    unfold get_default_branch
    rw [h1, h2]
  · intro p b h1 h2 h3
    unfold get_default_branch
    rw [h1, h2, h3]
  · intro p h1 h2 h3
    unfold get_default_branch
    rw [h1, h2, h3]
  · intro p hsym h2 hmas hmai
    have h1 : tier1 p.symbolicRefOut = none := by rw [hsym]; rfl
    unfold get_default_branch
    rw [h1]
    rcases h2 with h2 | h2
    · rw [h2, h3m _ hmas hmai]
    · rw [h2]

theorem C3_get_default_branch_fallback_witness :
    get_default_branch ⟨none, none, ["master"]⟩ = "master" :=
  C3_get_default_branch_fallback.2.2.2.2.2 ⟨none, none, ["master"]⟩ rfl
    (Or.inl rfl) (by decide) (by decide)

/-- C2: a `POST /workflow` whose normalized `(gitUrl, branch, path)`
triple equals the recorded `ACTIVE_WORKFLOW_*` state is a no-op: the
handler answers `Workflow already active`, performs no clone, sends no
greeting, and leaves the whole process state (including the adapter
readiness flag and the recorded workflow) untouched. -/
theorem C2_workflow_noop (st : WfState) (req : WorkflowReq) (cloneSucceeds : Bool)
    (h : pyStrip (st.env.activeWorkflowGitUrl.getD "") = pyStrip (pyOrOpt req.gitUrl "") ∧
         pyOr (pyStrip (st.env.activeWorkflowBranch.getD "main")) "main" =
           pyOr (pyStrip (pyOrOpt req.branch "main")) "main" ∧
         pyStrip (st.env.activeWorkflowPath.getD "") = pyStrip (pyOrOpt req.path "")) :
    (change_workflow st req cloneSucceeds).1.message = "Workflow already active" ∧
    (change_workflow st req cloneSucceeds).2.1 = st ∧
    (change_workflow st req cloneSucceeds).2.2 = ⟨false, false⟩ := by
  simp only [change_workflow]
  rw [if_pos h]
  exact ⟨rfl, rfl, rfl⟩


/-- Sample recorded workflow state used by the concrete witnesses. -/
def wfDemoState : WfState :=
  { env := { activeWorkflowGitUrl := some "https://e/w.git",
             activeWorkflowBranch := some "main",
             activeWorkflowPath := some "" },
    adapterInitialized := true, firstRun := false }

/-- Sample workflow request matching `wfDemoState`. -/
def wfDemoReq : WorkflowReq := ⟨some "https://e/w.git", some "main", some ""⟩

theorem C2_workflow_noop_witness :
    (pyStrip (wfDemoState.env.activeWorkflowGitUrl.getD "") =
        pyStrip (pyOrOpt wfDemoReq.gitUrl "") ∧
     pyOr (pyStrip (wfDemoState.env.activeWorkflowBranch.getD "main")) "main" =
        pyOr (pyStrip (pyOrOpt wfDemoReq.branch "main")) "main" ∧
     pyStrip (wfDemoState.env.activeWorkflowPath.getD "") =
        pyStrip (pyOrOpt wfDemoReq.path "")) ∧
    ((change_workflow wfDemoState wfDemoReq false).1.message = "Workflow already active" ∧
     (change_workflow wfDemoState wfDemoReq false).2.1 = wfDemoState ∧
     (change_workflow wfDemoState wfDemoReq false).2.2 = ⟨false, false⟩) :=
  ⟨by decide, C2_workflow_noop wfDemoState wfDemoReq false (by decide)⟩

/-- C6: a workflow change to a new nonempty `gitUrl` goes through even
when the workflow clone fails: the handler (modelled with the clone
outcome `false`) still records the new normalized triple in the
`ACTIVE_WORKFLOW_*` state, clears the adapter readiness flag, marks the
adapter for a first run, spawns the greeting, and answers
`Workflow updated`. -/
theorem C6_workflow_update_survives_clone_failure (st : WfState) (req : WorkflowReq)
    (hne : ¬(pyStrip (st.env.activeWorkflowGitUrl.getD "") = pyStrip (pyOrOpt req.gitUrl "") ∧
             pyOr (pyStrip (st.env.activeWorkflowBranch.getD "main")) "main" =
               pyOr (pyStrip (pyOrOpt req.branch "main")) "main" ∧
             pyStrip (st.env.activeWorkflowPath.getD "") = pyStrip (pyOrOpt req.path "")))
    (hurl : pyStrip (pyOrOpt req.gitUrl "") ≠ "") :
    (change_workflow st req false).1.message = "Workflow updated" ∧
    (change_workflow st req false).2.1.env.activeWorkflowGitUrl =
      some (pyStrip (pyOrOpt req.gitUrl "")) ∧
    (change_workflow st req false).2.1.env.activeWorkflowBranch =
      some (pyOr (pyStrip (pyOrOpt req.branch "main")) "main") ∧
    (change_workflow st req false).2.1.env.activeWorkflowPath =
      some (pyStrip (pyOrOpt req.path "")) ∧
    (change_workflow st req false).2.1.adapterInitialized = false ∧
    (change_workflow st req false).2.1.firstRun = true ∧
    (change_workflow st req false).2.2 = ⟨true, true⟩ := by
  simp only [change_workflow]
  rw [if_neg hne]
  refine ⟨rfl, rfl, rfl, rfl, rfl, rfl, ?_⟩
  simp only [WfEffects.mk.injEq, and_true]
  exact bne_iff_ne.mpr hurl

/-- Sample state with no recorded workflow, for the C6 witness. -/
def wfEmptyState : WfState := { env := {}, adapterInitialized := true, firstRun := false }

theorem C6_workflow_update_survives_clone_failure_witness :
    (¬(pyStrip (wfEmptyState.env.activeWorkflowGitUrl.getD "") =
          pyStrip (pyOrOpt wfDemoReq.gitUrl "") ∧
       pyOr (pyStrip (wfEmptyState.env.activeWorkflowBranch.getD "main")) "main" =
          pyOr (pyStrip (pyOrOpt wfDemoReq.branch "main")) "main" ∧
       pyStrip (wfEmptyState.env.activeWorkflowPath.getD "") =
          pyStrip (pyOrOpt wfDemoReq.path ""))) ∧
    (pyStrip (pyOrOpt wfDemoReq.gitUrl "") ≠ "") ∧
    ((change_workflow wfEmptyState wfDemoReq false).1.message = "Workflow updated" ∧
     (change_workflow wfEmptyState wfDemoReq false).2.1.adapterInitialized = false ∧
     (change_workflow wfEmptyState wfDemoReq false).2.2 = ⟨true, true⟩) :=
  ⟨by decide, by decide,
   (C6_workflow_update_survives_clone_failure wfEmptyState wfDemoReq
      (by decide) (by decide)).1,
   (C6_workflow_update_survives_clone_failure wfEmptyState wfDemoReq
      (by decide) (by decide)).2.2.2.2.1,
   (C6_workflow_update_survives_clone_failure wfEmptyState wfDemoReq
      (by decide) (by decide)).2.2.2.2.2.2⟩

/-- C5: the provisioner's branch synthesis: every empty (or blank)
branch argument resolves to `ambient/<sessionId>` with the session id
taken from the environment, and any two such calls in the same
environment resolve to the same name. -/
theorem C5_ambient_branch_synthesis (env : Env) (b b' : String)
    (h : pyStrip b = "") (h' : pyStrip b' = "") :
    resolveBranch env b = "ambient/" ++ sessionIdOf env ∧
    resolveBranch env b = resolveBranch env b' := by
  unfold resolveBranch
  rw [if_pos h, if_pos h']
  exact ⟨rfl, rfl⟩

theorem C5_ambient_branch_synthesis_witness :
    (pyStrip "" = "" ∧ pyStrip "  " = "") ∧
    (resolveBranch demoEnv "" = "ambient/" ++ sessionIdOf demoEnv ∧
     resolveBranch demoEnv "" = resolveBranch demoEnv "  ") :=
  ⟨⟨by decide, by decide⟩,
   C5_ambient_branch_synthesis demoEnv "" "  " (by decide) (by decide)⟩

/-- C7: credential injection precedence and form.  For a GitHub-hosted
URL with both a header token and an environment token, the clone URL
embeds the header token (never the environment one) as an
`x-access-token:<token>@` userinfo component; GitLab-matching URLs with
a GitLab token get `oauth2:<token>@`; and whatever the provisioner
does, `add_repo` only ever persists the caller's original token-free
`url` in the registry. -/
theorem C7_credential_injection :
    (∀ (url tok : String) (env : Env) (glOv : Option String),
        tok ≠ "" → hasSub (lowerStr url) "github" = true →
        buildCloneUrl url (some tok) glOv env =
          pyReplace url "https://" ("https://x-access-token:" ++ tok ++ "@")) ∧
    (∀ (url tok : String) (env : Env),
        tok ≠ "" → env.githubToken = none →
        hasSub (lowerStr url) "gitlab" = true →
        buildCloneUrl url none (some tok) env =
          pyReplace url "https://" ("https://oauth2:" ++ tok ++ "@")) ∧
    (∀ (env : Env) (st : RunnerState) (remote : Remote) (req : AddReq) (u : String),
        req.url = some u →
        (add_repo env st remote req).2.1.registry = st.registry ∨
        (add_repo env st remote req).2.1.registry =
          st.registry ++ [⟨effName u (req.name.getD ""), u, req.branch.getD "main"⟩]) := by
  refine ⟨?_, ?_, ?_⟩
  · intro url tok env glOv htok hsub
    unfold buildCloneUrl
    have hg : pyOrOpt (some tok) (pyStrip (env.githubToken.getD "")) = tok := by
      simp [pyOrOpt, pyOr, htok]
    rw [hg, if_pos ⟨htok, hsub⟩]
  · intro url tok env htok hgh hsub
    unfold buildCloneUrl
    have hg : pyOrOpt none (pyStrip (env.githubToken.getD "")) = "" := by
      rw [hgh]
      rfl
    have hl : pyOrOpt (some tok) (pyStrip (env.gitlabToken.getD "")) = tok := by
      simp [pyOrOpt, pyOr, htok]
    rw [hg, hl, if_neg (by simp), if_pos ⟨htok, hsub⟩]
  · intro env st remote req u hu
    simp only [add_repo]
    rw [hu]
    simp only [Option.getD_some]
    by_cases h0 : u = ""
    · rw [if_pos h0]
      exact Or.inl rfl
    · rw [if_neg h0]
      by_cases hs : (clone_repo_at_runtime env st.repos remote u (req.branch.getD "main")
          (if req.name.getD "" = "" then deriveName u else req.name.getD "")).1.success = true
      · rw [if_pos hs]
        by_cases hn : (clone_repo_at_runtime env st.repos remote u (req.branch.getD "main")
            (if req.name.getD "" = "" then deriveName u
             else req.name.getD "")).1.wasNewlyCloned = true
        · rw [if_pos hn]
          exact Or.inr rfl
        · rw [if_neg hn]
          exact Or.inl rfl
      · rw [if_neg hs]
        exact Or.inl rfl

theorem C7_credential_injection_witness :
    (("HDR" : String) ≠ "" ∧
     hasSub (lowerStr "https://GitHub.com/org/proj.git") "github" = true) ∧
    buildCloneUrl "https://GitHub.com/org/proj.git" (some "HDR") none
        { githubToken := some "ENV" } =
      pyReplace "https://GitHub.com/org/proj.git" "https://"
        ("https://x-access-token:" ++ "HDR" ++ "@") :=
  ⟨⟨by decide, by decide⟩,
   C7_credential_injection.1 "https://GitHub.com/org/proj.git" "HDR"
     { githubToken := some "ENV" } none (by decide) (by decide)⟩

/-- A `POST /repos/add` whose name is not yet provisioned, against a
reachable remote: the full fresh-clone success path, with the registry
record carrying the caller's `url` and raw `branch` input. -/
theorem add_repo_fresh (env : Env) (st : RunnerState) (remote : Remote) (req : AddReq)
    (u : String) (hu : req.url = some u) (h0 : u ≠ "")
    (hl : lookupRepo st.repos (effName u (req.name.getD "")) = none)
    (hok : remote.cloneOk = true) :
    add_repo env st remote req =
      (.ok ⟨"Repository added", effName u (req.name.getD ""),
            reposRoot env ++ "/" ++ effName u (req.name.getD ""), true⟩,
       { st with
          repos := st.repos ++ [(effName u (req.name.getD ""),
                    freshClone remote (resolveBranch env (req.branch.getD "main")))],
          registry := st.registry ++ [⟨effName u (req.name.getD ""), u, req.branch.getD "main"⟩],
          adapterInitialized := false,
          firstRun := true },
       true) := by
  have hl2 : lookupRepo st.repos (effName u (effName u (req.name.getD ""))) = none := by
    rw [effName_idem]
    exact hl
  have hclone := clone_fresh env st.repos remote u (req.branch.getD "main")
    (effName u (req.name.getD "")) h0 hl2 hok
  rw [effName_idem u (req.name.getD "")] at hclone
  simp only [add_repo]
  rw [hu]
  simp only [Option.getD_some]
  rw [if_neg h0]
  rw [show (if req.name.getD "" = "" then deriveName u else req.name.getD "")
        = effName u (req.name.getD "") from rfl]
  rw [hclone]
  rfl

/-- C4 as stated fails on the code: on an empty workspace,
`POST /repos/add` with `branch = ""` checks out the synthesized
`ambient/s1` branch, yet the registry record stores the empty input
branch, not the resolved name. -/
theorem C4_counterexample :
    ((add_repo demoEnv emptyRunnerState demoRemote
        ⟨some "https://example.com/org/proj.git", some "", some ""⟩).2.1.registry.map
          RepoRecord.branch = [""]) ∧
    ((lookupRepo (add_repo demoEnv emptyRunnerState demoRemote
        ⟨some "https://example.com/org/proj.git", some "", some ""⟩).2.1.repos "proj").map
          GitRepo.currentBranch = some "ambient/s1") ∧
    ("" : String) ≠ "ambient/s1" := by decide

/-- C4 (amended): the registry entry created by a successful,
newly-cloning `POST /repos/add` with an empty branch input records the
caller's raw input branch (the empty string) — the key of the record is
`input` — while the provisioned directory is checked out on the
synthesized `ambient/<sessionId>` branch. -/
theorem C4_registry_records_input_branch (env : Env) (st : RunnerState) (remote : Remote)
    (req : AddReq) (u : String)
    (hu : req.url = some u) (h0 : u ≠ "") (hb : req.branch = some "")
    (hl : lookupRepo st.repos (effName u (req.name.getD "")) = none)
    (hok : remote.cloneOk = true) :
    (add_repo env st remote req).2.1.registry =
      st.registry ++ [⟨effName u (req.name.getD ""), u, ""⟩] ∧
    (lookupRepo (add_repo env st remote req).2.1.repos
        (effName u (req.name.getD ""))).map GitRepo.currentBranch =
      some ("ambient/" ++ sessionIdOf env) := by
  rw [add_repo_fresh env st remote req u hu h0 hl hok]
  rw [hb]
  simp only [Option.getD_some]
  constructor
  · trivial
  · have hres : resolveBranch env "" = "ambient/" ++ sessionIdOf env := by
      unfold resolveBranch
      rw [if_pos (by decide)]
    rw [hres]
    rw [lookupRepo_append_self (freshClone remote ("ambient/" ++ sessionIdOf env)) hl]
    show some (freshClone remote ("ambient/" ++ sessionIdOf env)).currentBranch =
      some ("ambient/" ++ sessionIdOf env)
    rw [(freshClone_spec remote ("ambient/" ++ sessionIdOf env)).1]

theorem C4_registry_records_input_branch_witness :
    ((⟨some "https://example.com/org/proj.git", some "", some ""⟩ : AddReq).url =
        some "https://example.com/org/proj.git" ∧
     ("https://example.com/org/proj.git" : String) ≠ "" ∧
     (⟨some "https://example.com/org/proj.git", some "", some ""⟩ : AddReq).branch = some "" ∧
     lookupRepo emptyRunnerState.repos
        (effName "https://example.com/org/proj.git"
          ((⟨some "https://example.com/org/proj.git", some "", some ""⟩ : AddReq).name.getD "")) =
        none ∧
     demoRemote.cloneOk = true) ∧
    ((add_repo demoEnv emptyRunnerState demoRemote
        ⟨some "https://example.com/org/proj.git", some "", some ""⟩).2.1.registry =
      emptyRunnerState.registry ++
        [⟨effName "https://example.com/org/proj.git"
            ((⟨some "https://example.com/org/proj.git", some "", some ""⟩ : AddReq).name.getD ""),
          "https://example.com/org/proj.git", ""⟩] ∧
     (lookupRepo (add_repo demoEnv emptyRunnerState demoRemote
        ⟨some "https://example.com/org/proj.git", some "", some ""⟩).2.1.repos
        (effName "https://example.com/org/proj.git"
          ((⟨some "https://example.com/org/proj.git", some "", some ""⟩ : AddReq).name.getD ""))).map
        GitRepo.currentBranch =
      some ("ambient/" ++ sessionIdOf demoEnv)) :=
  ⟨⟨rfl, by decide, rfl, by decide, rfl⟩,
   C4_registry_records_input_branch demoEnv emptyRunnerState demoRemote
     ⟨some "https://example.com/org/proj.git", some "", some ""⟩
     "https://example.com/org/proj.git" rfl (by decide) rfl (by decide) rfl⟩

/-- C9: a `POST /repos/add` body that omits the `branch` key entirely
provisions on `main`, not on the ambient branch: the endpoint defaults
a missing branch to `main` before calling the provisioner, `main` never
resolves to an ambient name, and the fresh clone ends up checked out on
`main`; the ambient synthesis fires only for an explicitly empty
branch. -/
theorem C9_missing_branch_defaults_to_main :
    (∀ sid : String, "main" ≠ "ambient/" ++ sid) ∧
    (∀ env : Env, resolveBranch env "main" = "main") ∧
    (∀ (env : Env) (st : RunnerState) (remote : Remote) (req : AddReq) (u : String),
        req.url = some u → u ≠ "" → req.branch = none →
        lookupRepo st.repos (effName u (req.name.getD "")) = none →
        remote.cloneOk = true →
        (lookupRepo (add_repo env st remote req).2.1.repos
            (effName u (req.name.getD ""))).map GitRepo.currentBranch = some "main") := by
  have hres : ∀ env : Env, resolveBranch env "main" = "main" := by
    intro env
    unfold resolveBranch
    rw [if_neg (by decide)]
  refine ⟨?_, hres, ?_⟩
  · intro sid h
    have hlen := congrArg String.length h
    rw [String.length_append] at hlen
    have h4 : ("main" : String).length = 4 := by decide
    have h8 : ("ambient/" : String).length = 8 := by decide
    rw [h4, h8] at hlen
    omega
  · intro env st remote req u hu h0 hb hl hok
    rw [add_repo_fresh env st remote req u hu h0 hl hok]
    rw [hb]
    simp only [Option.getD_none]
    rw [hres env]
    rw [lookupRepo_append_self (freshClone remote "main") hl]
    show some (freshClone remote "main").currentBranch = some "main"
    rw [(freshClone_spec remote "main").1]

theorem C9_missing_branch_defaults_to_main_witness :
    ((⟨some "https://example.com/org/proj.git", none, some ""⟩ : AddReq).url =
        some "https://example.com/org/proj.git" ∧
     ("https://example.com/org/proj.git" : String) ≠ "" ∧
     (⟨some "https://example.com/org/proj.git", none, some ""⟩ : AddReq).branch = none ∧
     lookupRepo emptyRunnerState.repos
        (effName "https://example.com/org/proj.git"
          ((⟨some "https://example.com/org/proj.git", none, some ""⟩ : AddReq).name.getD "")) =
        none ∧
     demoRemote.cloneOk = true) ∧
    (lookupRepo (add_repo demoEnv emptyRunnerState demoRemote
        ⟨some "https://example.com/org/proj.git", none, some ""⟩).2.1.repos
        (effName "https://example.com/org/proj.git"
          ((⟨some "https://example.com/org/proj.git", none, some ""⟩ : AddReq).name.getD ""))).map
        GitRepo.currentBranch = some "main" :=
  ⟨⟨rfl, by decide, rfl, by decide, rfl⟩,
   C9_missing_branch_defaults_to_main.2.2 demoEnv emptyRunnerState demoRemote
     ⟨some "https://example.com/org/proj.git", none, some ""⟩
     "https://example.com/org/proj.git" rfl (by decide) rfl (by decide) rfl⟩

/-- C10: removing a repository whose directory does not exist still
succeeds: the handler answers `Repository removed`, drops every
registry record with that name, clears the adapter readiness flag and
leaves the filesystem untouched; an HTTP 500 arises only when the
directory exists and deleting it fails. -/
theorem C10_remove_missing_dir_succeeds :
    (∀ (st : RunnerState) (name : String) (rmOk : Bool),
        lookupRepo st.repos name = none →
        (remove_repo st name rmOk).1 = .ok "Repository removed" ∧
        (remove_repo st name rmOk).2.registry =
          st.registry.filter (fun r => r.name != name) ∧
        (remove_repo st name rmOk).2.adapterInitialized = false ∧
        (remove_repo st name rmOk).2.repos = st.repos) ∧
    (∀ (st : RunnerState) (name : String) (rmOk : Bool) (e : Nat × String),
        (remove_repo st name rmOk).1 = .error e →
        (lookupRepo st.repos name).isSome = true ∧ rmOk = false) := by
  constructor
  · intro st name rmOk hl
    unfold remove_repo
    rw [hl]
    exact ⟨rfl, rfl, rfl, rfl⟩
  · intro st name rmOk e he
    unfold remove_repo at he
    cases hl : lookupRepo st.repos name with
    | some r =>
      rw [hl] at he
      by_cases hr : rmOk = true
      · rw [if_pos hr] at he
        simp at he
      · rw [if_neg hr] at he
        refine ⟨rfl, ?_⟩
        revert hr
        cases rmOk <;> simp
    | none =>
      rw [hl] at he
      simp at he

theorem C10_remove_missing_dir_succeeds_witness :
    (lookupRepo emptyRunnerState.repos "proj" = none) ∧
    ((remove_repo emptyRunnerState "proj" true).1 = .ok "Repository removed" ∧
     (remove_repo emptyRunnerState "proj" true).2.registry =
       emptyRunnerState.registry.filter (fun r => r.name != "proj") ∧
     (remove_repo emptyRunnerState "proj" true).2.adapterInitialized = false ∧
     (remove_repo emptyRunnerState "proj" true).2.repos = emptyRunnerState.repos) :=
  ⟨rfl, C10_remove_missing_dir_succeeds.1 emptyRunnerState "proj" true rfl⟩

theorem lookupRepo_setRepo_isSome (ds : RepoDirs) (n : String) (r : GitRepo) (k : String) :
    (lookupRepo (setRepo ds n r) k).isSome = (lookupRepo ds k).isSome := by
  induction ds with
  | nil => rfl
  | cons p rest ih =>
    obtain ⟨k0, x⟩ := p
    rw [setRepo_cons]
    by_cases h0 : k0 = n
    · subst h0
      rw [if_pos rfl, lookupRepo_cons, lookupRepo_cons]
      by_cases hk : k0 = k
      · rw [if_pos hk, if_pos hk]
        rfl
      · rw [if_neg hk, if_neg hk]
        exact ih
    · rw [if_neg h0, lookupRepo_cons, lookupRepo_cons]
      by_cases hk : k0 = k
      · rw [if_pos hk, if_pos hk]
      · rw [if_neg hk, if_neg hk]
        exact ih

theorem lookupRepo_append_left {ds : RepoDirs} {k : String} {x : GitRepo} (l : RepoDirs)
    (h : lookupRepo ds k = some x) : lookupRepo (ds ++ l) k = some x := by
  induction ds with
  | nil => cases h
  | cons p rest ih =>
    obtain ⟨k0, y⟩ := p
    rw [lookupRepo_cons] at h
    rw [List.cons_append, lookupRepo_cons]
    by_cases h0 : k0 = k
    · rw [if_pos h0] at h
      rw [if_pos h0]
      exact h
    · rw [if_neg h0] at h
      rw [if_neg h0]
      exact ih h

theorem lookupRepo_filter_ne (ds : RepoDirs) (n k : String) (hk : k ≠ n) :
    lookupRepo (ds.filter (fun p => p.1 != n)) k = lookupRepo ds k := by
  induction ds with
  | nil => rfl
  | cons p rest ih =>
    obtain ⟨k0, x⟩ := p
    rw [lookupRepo_cons]
    by_cases h0 : k0 = n
    · rw [List.filter_cons_of_neg (by simp [h0])]
      rw [if_neg (by rw [h0]; exact fun he => hk he.symm)]
      exact ih
    · rw [List.filter_cons_of_pos (by simp [h0])]
      rw [lookupRepo_cons]
      by_cases hk0 : k0 = k
      · rw [if_pos hk0, if_pos hk0]
      · rw [if_neg hk0, if_neg hk0]
        exact ih

/-- Every provisioning call either leaves the set of directory names
unchanged (and reports `wasNewlyCloned = false`), or is the fresh-clone
path appending exactly the one new directory. -/
theorem clone_not_new_or_fresh (env : Env) (repos : RepoDirs) (remote : Remote)
    (gitUrl branch name : String) :
    ((clone_repo_at_runtime env repos remote gitUrl branch name).1.wasNewlyCloned = false ∧
     ∀ k, (lookupRepo (clone_repo_at_runtime env repos remote gitUrl branch name).2 k).isSome =
          (lookupRepo repos k).isSome) ∨
    (gitUrl ≠ "" ∧ lookupRepo repos (effName gitUrl name) = none ∧ remote.cloneOk = true ∧
     clone_repo_at_runtime env repos remote gitUrl branch name =
       (⟨true, reposRoot env ++ "/" ++ effName gitUrl name, true⟩,
        repos ++ [(effName gitUrl name, freshClone remote (resolveBranch env branch))])) := by
  by_cases hu : gitUrl = ""
  · left
    rw [clone_repo_at_runtime, if_pos hu]
    exact ⟨rfl, fun k => rfl⟩
  · cases hl : lookupRepo repos (effName gitUrl name) with
    | some repo =>
      left
      unfold clone_repo_at_runtime
      rw [if_neg hu]
      simp only [hl]
      by_cases hp : (provisionExisting repo remote (resolveBranch env branch)).1 = true
      · rw [if_pos hp]
        exact ⟨rfl, fun k => lookupRepo_setRepo_isSome repos (effName gitUrl name) _ k⟩
      · rw [if_neg hp]
        exact ⟨rfl, fun k => lookupRepo_setRepo_isSome repos (effName gitUrl name) _ k⟩
    | none =>
      by_cases hok : remote.cloneOk = true
      · right
        exact ⟨hu, rfl, hok, clone_fresh env repos remote gitUrl branch name hu hl hok⟩
      · left
        unfold clone_repo_at_runtime
        rw [if_neg hu]
        simp only [hl]
        rw [if_neg hok]
        exact ⟨rfl, fun k => rfl⟩

/-- The §3 invariant: registry names are unique, and every registered
name has a directory under `repos/`. -/
def RegistryInv (st : RunnerState) : Prop :=
  (registryNames st).Nodup ∧
  ∀ rec ∈ st.registry, (lookupRepo st.repos rec.name).isSome = true

theorem add_repo_preserves_inv (env : Env) (st : RunnerState) (remote : Remote) (req : AddReq)
    (h : RegistryInv st) : RegistryInv (add_repo env st remote req).2.1 := by
  obtain ⟨hnd, hdir⟩ := h
  cases hru : req.url with
  | none =>
    have hst : (add_repo env st remote req).2.1 = st := by
      simp only [add_repo, hru, Option.getD_none]
      rw [if_pos trivial]
    rw [hst]
    exact ⟨hnd, hdir⟩
  | some u =>
    by_cases h0 : u = ""
    · have hst : (add_repo env st remote req).2.1 = st := by
        simp only [add_repo, hru, Option.getD_some]
        rw [if_pos h0]
      rw [hst]
      exact ⟨hnd, hdir⟩
    · rcases clone_not_new_or_fresh env st.repos remote u (req.branch.getD "main")
          (if req.name.getD "" = "" then deriveName u else req.name.getD "")
        with ⟨hnew, hkeys⟩ | ⟨hu2, hl, hok, heq⟩
      · by_cases hs : (clone_repo_at_runtime env st.repos remote u (req.branch.getD "main")
            (if req.name.getD "" = "" then deriveName u else req.name.getD "")).1.success = true
        · have hst : (add_repo env st remote req).2.1 =
              { st with repos := (clone_repo_at_runtime env st.repos remote u
                  (req.branch.getD "main")
                  (if req.name.getD "" = "" then deriveName u else req.name.getD "")).2 } := by
            simp only [add_repo, hru, Option.getD_some]
            rw [if_neg h0, if_pos hs, if_neg (by rw [hnew]; exact Bool.false_ne_true)]
          rw [hst]
          exact ⟨hnd, fun rec hrec => by rw [hkeys rec.name]; exact hdir rec hrec⟩
        · have hst : (add_repo env st remote req).2.1 =
              { st with repos := (clone_repo_at_runtime env st.repos remote u
                  (req.branch.getD "main")
                  (if req.name.getD "" = "" then deriveName u else req.name.getD "")).2 } := by
            simp only [add_repo, hru, Option.getD_some]
            rw [if_neg h0, if_neg hs]
          rw [hst]
          exact ⟨hnd, fun rec hrec => by rw [hkeys rec.name]; exact hdir rec hrec⟩
      · have hl2 : lookupRepo st.repos (effName u (req.name.getD "")) = none := by
          rw [← effName_idem u (req.name.getD "")]
          exact hl
        have heqa := add_repo_fresh env st remote req u hru h0 hl2 hok
        rw [heqa]
        have hnotin : effName u (req.name.getD "") ∉ registryNames st := by
          intro hmem
          obtain ⟨rec, hrec, hname⟩ := List.mem_map.mp hmem
          have hd := hdir rec hrec
          rw [hname, hl2] at hd
          cases hd
        constructor
        · have hmapeq : registryNames
              ({ st with
                  repos := st.repos ++ [(effName u (req.name.getD ""),
                    freshClone remote (resolveBranch env (req.branch.getD "main")))],
                  registry := st.registry ++
                    [⟨effName u (req.name.getD ""), u, req.branch.getD "main"⟩],
                  adapterInitialized := false,
                  firstRun := true }) =
              registryNames st ++ [effName u (req.name.getD "")] := by
            simp [registryNames]
          rw [hmapeq, List.nodup_append]
          refine ⟨hnd, List.nodup_singleton _, ?_⟩
          intro b hb hb'
          rw [List.mem_singleton] at hb'
          subst hb'
          exact hnotin hb
        · intro rec hrec
          rw [List.mem_append] at hrec
          rcases hrec with hrec | hrec
          · have hd := hdir rec hrec
            cases hx : lookupRepo st.repos rec.name with
            | none =>
              rw [hx] at hd
              cases hd
            | some x =>
              show (lookupRepo (st.repos ++ [(effName u (req.name.getD ""),
                freshClone remote (resolveBranch env (req.branch.getD "main")))])
                rec.name).isSome = true
              rw [lookupRepo_append_left _ hx]
              rfl
          · rw [List.mem_singleton] at hrec
            subst hrec
            show (lookupRepo (st.repos ++ [(effName u (req.name.getD ""),
              freshClone remote (resolveBranch env (req.branch.getD "main")))])
              (effName u (req.name.getD ""))).isSome = true
            rw [lookupRepo_append_self _ hl2]
            rfl

theorem remove_repo_preserves_inv (st : RunnerState) (name : String) (rmOk : Bool)
    (h : RegistryInv st) : RegistryInv (remove_repo st name rmOk).2 := by
  obtain ⟨hnd, hdir⟩ := h
  have hsub : ∀ (l : List RepoRecord), (l.map RepoRecord.name).Nodup →
      ((l.filter (fun r => r.name != name)).map RepoRecord.name).Nodup := by
    intro l hl
    exact hl.sublist ((l.filter_sublist).map RepoRecord.name)
  unfold remove_repo
  cases hl : lookupRepo st.repos name with
  | some r =>
    by_cases hr : rmOk = true
    · rw [if_pos hr]
      constructor
      · exact hsub _ hnd
      · intro rec hrec
        rw [List.mem_filter] at hrec
        obtain ⟨hmem, hne⟩ := hrec
        have hne' : rec.name ≠ name := by simpa using hne
        show (lookupRepo (st.repos.filter (fun p => p.1 != name)) rec.name).isSome = true
        rw [lookupRepo_filter_ne _ _ _ hne']
        exact hdir rec hmem
    · rw [if_neg hr]
      exact ⟨hnd, hdir⟩
  | none =>
    constructor
    · exact hsub _ hnd
    · intro rec hrec
      rw [List.mem_filter] at hrec
      exact hdir rec hrec.1

/-- C8: registry uniqueness.  Starting from an empty registry and an
empty `repos/` directory, after any sequence of `/repos/add` and
`/repos/remove` requests the `REPOS_JSON` registry never holds two
records with the same name. -/
theorem C8_registry_names_unique (env : Env) (ops : List RepoOp) :
    (registryNames (ops.foldl (applyRepoOp env) emptyRunnerState)).Nodup := by
  suffices h : ∀ (l : List RepoOp) (st : RunnerState), RegistryInv st →
      RegistryInv (l.foldl (applyRepoOp env) st) by
    exact (h ops emptyRunnerState ⟨List.nodup_nil, fun rec hrec => by cases hrec⟩).1
  intro l
  induction l with
  | nil =>
    intro st h
    exact h
  | cons op rest ih =>
    intro st h
    rw [List.foldl_cons]
    refine ih _ ?_
    cases op with
    | add remote req => exact add_repo_preserves_inv env st remote req h
    | remove name rmOk => exact remove_repo_preserves_inv st name rmOk h
